import Mathlib

/-!
Shallow embedding of `ScenarioManager/atomic_scenario_behavior.py`.

The module is a library of atomic scenario behaviors (py_trees leaf nodes):
condition nodes that evaluate spatial/kinematic predicates over actor state and
action nodes that mutate a persistent `carla.VehicleControl` object and issue it
to the actor via `apply_control` each tick.

Modelling conventions:
- Python floats are modelled as rationals (`ℚ`).
- The kinematic helpers `calculate_distance` (Euclidean distance between two
  locations, line 23) and `calculate_velocity` (`sqrt(vx^2 + vy^2)`, line 35)
  produce a single nonnegative scalar that the node bodies use opaquely; each
  `update` below therefore takes the helper results (`distance`, `velocity`)
  as scalar arguments.  `InTriggerRegion` reads `location.x` / `location.y`
  directly, so it takes a `Location`.
- `apply_control` side effects are made explicit: each action-node call returns
  the list of commands passed to `apply_control` during that call, in order.
-/

/-- `py_trees.common.Status`, the four-valued tick status. -/
inductive Status where
  | INVALID
  | RUNNING
  | SUCCESS
  | FAILURE
deriving DecidableEq

/-- `EPSILON = 0.001` (line 20). -/
def EPSILON : ℚ := 1/1000

/-- A carla location as read by `InTriggerRegion.update` (`location.x`,
`location.y`). -/
structure Location where
  x : ℚ
  y : ℚ
deriving DecidableEq

/-- `carla.VehicleControl`: the control-command value object an action node
owns.  Constructor defaults are all-neutral (throttle 0, steer 0, brake 0,
hand_brake/reverse off). -/
structure VehicleControl where
  throttle : ℚ
  steer : ℚ
  brake : ℚ
  hand_brake : Bool
  reverse : Bool
deriving DecidableEq

/-- `carla.VehicleControl()` — the construction-time defaults. -/
def VehicleControl.init : VehicleControl :=
  { throttle := 0, steer := 0, brake := 0, hand_brake := false, reverse := false }

/-- `InTriggerRegion.update` (lines 70-85): RUNNING while the vehicle location
is outside the rectangle, SUCCESS otherwise. -/
def InTriggerRegion.update (min_x max_x min_y max_y : ℚ) (location : Location) :
    Status :=
  let not_in_region := (location.x < min_x ∨ location.x > max_x) ∨
      (location.y < min_y ∨ location.y > max_y)
  if not_in_region then Status.RUNNING else Status.SUCCESS

/-- `InTriggerDistanceToVehicle.update` (lines 116-131).  `distance` is the
threshold `self.distance`; `ego_to_other` is
`calculate_distance(ego_location, other_location)`. -/
def InTriggerDistanceToVehicle.update (distance : ℚ) (ego_to_other : ℚ) :
    Status :=
  if ego_to_other > distance then Status.RUNNING else Status.SUCCESS

/-- `InTriggerDistanceToLocation.update` (lines 162-176).  `distance` is the
threshold `self.distance`; `to_target` is
`calculate_distance(location, self.target_location)`. -/
def InTriggerDistanceToLocation.update (distance : ℚ) (to_target : ℚ) :
    Status :=
  if to_target > distance then Status.RUNNING else Status.SUCCESS

/-- `TriggerVelocity.update` (lines 205-217).  `velocity` is
`calculate_velocity(self.vehicle)`; SUCCESS when
`velocity - target_velocity < EPSILON`. -/
def TriggerVelocity.update (target_velocity : ℚ) (velocity : ℚ) : Status :=
  if velocity - target_velocity < EPSILON then Status.SUCCESS else Status.RUNNING

/-- `max_time_to_arrival = 10000`, the class attribute of both
time-to-arrival nodes (lines 231 and 285). -/
def max_time_to_arrival : ℚ := 10000

/-- `InTimeToArrivalToLocation.update` (lines 250-271).  `distance` is
`calculate_distance(current_location, self.target_location)`; `velocity` is
`calculate_velocity(self.vehicle)`.  The body first sets
`time_to_arrival = max_time_to_arrival` and overwrites it with
`distance / velocity` when `velocity > EPSILON`. -/
def InTimeToArrivalToLocation.update (time : ℚ) (distance velocity : ℚ) :
    Status :=
  let time_to_arrival :=
    if velocity > EPSILON then distance / velocity else max_time_to_arrival
  if time_to_arrival > time then Status.RUNNING else Status.SUCCESS

/-- `InTimeToArrivalToVehicle.update` (lines 304-328).  `distance` is
`calculate_distance(current_location, target_location)`;
`current_velocity` / `other_velocity` are the two `calculate_velocity`
results.  The body first sets `time_to_arrival = max_time_to_arrival` and
overwrites it with `2 * distance / (current_velocity - other_velocity)` when
`current_velocity > other_velocity`. -/
def InTimeToArrivalToVehicle.update
    (time : ℚ) (distance current_velocity other_velocity : ℚ) : Status :=
  let time_to_arrival :=
    if current_velocity > other_velocity then
      2 * distance / (current_velocity - other_velocity)
    else max_time_to_arrival
  if time_to_arrival > time then Status.RUNNING else Status.SUCCESS

/-- `AccelerateToVelocity.update` (lines 362-377).  Mutates the persistent
`self.control` (throttle only) and then calls
`self.vehicle.apply_control(self.control)`.  Result: (new_status, the node's
control after the call, the commands passed to `apply_control` during the
call). -/
def AccelerateToVelocity.update (throttle_value target_velocity : ℚ)
    (control : VehicleControl) (velocity : ℚ) :
    Status × VehicleControl × List VehicleControl :=
  let r :=
    if velocity < target_velocity then
      (Status.RUNNING, { control with throttle := throttle_value })
    else
      (Status.SUCCESS, { control with throttle := 0 })
  (r.1, r.2, [r.2])

/-- `AccelerateToVelocity.terminate` (lines 379-381): only logs — the control
is left unchanged and nothing is passed to `apply_control`. -/
def AccelerateToVelocity.terminate (control : VehicleControl) :
    VehicleControl × List VehicleControl :=
  (control, [])

/-- `KeepVelocity.update` (lines 415-428): always RUNNING; throttle 1.0 while
`velocity < target_velocity`, else 0.0; then
`self.vehicle.apply_control(self.control)`. -/
def KeepVelocity.update (target_velocity : ℚ)
    (control : VehicleControl) (velocity : ℚ) :
    Status × VehicleControl × List VehicleControl :=
  let c :=
    if velocity < target_velocity then { control with throttle := (1 : ℚ) }
    else { control with throttle := (0 : ℚ) }
  (Status.RUNNING, c, [c])

/-- `KeepVelocity.terminate` (lines 430-438): sets `self.control.throttle`
back to 0 and applies the control to the vehicle. -/
def KeepVelocity.terminate (control : VehicleControl) :
    VehicleControl × List VehicleControl :=
  let c := { control with throttle := (0 : ℚ) }
  (c, [c])

/-- `StopVehicle.update` (lines 465-480).  Mutates the persistent
`self.control` (brake only) and then calls
`self.vehicle.apply_control(self.control)`. -/
def StopVehicle.update (brake_value : ℚ)
    (control : VehicleControl) (velocity : ℚ) :
    Status × VehicleControl × List VehicleControl :=
  let r :=
    if velocity > EPSILON then
      (Status.RUNNING, { control with brake := brake_value })
    else
      (Status.SUCCESS, { control with brake := 0 })
  (r.1, r.2, [r.2])

/-- `StopVehicle.terminate` (lines 482-484): only logs — the control is left
unchanged and nothing is passed to `apply_control`. -/
def StopVehicle.terminate (control : VehicleControl) :
    VehicleControl × List VehicleControl :=
  (control, [])

/-- Iterated ticks of `AccelerateToVelocity`: the node's control after
updating once per entry of the velocity trace. -/
def AccelerateToVelocity.run (throttle_value target_velocity : ℚ) :
    VehicleControl → List ℚ → VehicleControl
  | control, [] => control
  | control, v :: vs =>
      AccelerateToVelocity.run throttle_value target_velocity
        (AccelerateToVelocity.update throttle_value target_velocity control v).2.1 vs

/-- Iterated ticks of `KeepVelocity`. -/
def KeepVelocity.run (target_velocity : ℚ) :
    VehicleControl → List ℚ → VehicleControl
  | control, [] => control
  | control, v :: vs =>
      KeepVelocity.run target_velocity
        (KeepVelocity.update target_velocity control v).2.1 vs

/-- Iterated ticks of `StopVehicle`. -/
def StopVehicle.run (brake_value : ℚ) :
    VehicleControl → List ℚ → VehicleControl
  | control, [] => control
  | control, v :: vs =>
      StopVehicle.run brake_value
        (StopVehicle.update brake_value control v).2.1 vs

/-- The actor's commanded control after a call: the last command the call
passed to `apply_control`, or the previously commanded control when the call
applied none. -/
def commandedAfter (previous : VehicleControl)
    (applied : List VehicleControl) : VehicleControl :=
  applied.getLast?.getD previous

/-! ## Shared helper lemmas about the condition-node branch shape -/

theorem ite_status_cases (c : Prop) [Decidable c] :
    (if c then Status.RUNNING else Status.SUCCESS) = Status.RUNNING ∨
      (if c then Status.RUNNING else Status.SUCCESS) = Status.SUCCESS := by
  split
  · exact Or.inl rfl
  · exact Or.inr rfl

theorem ite_status_success_iff (c : Prop) [Decidable c] :
    (if c then Status.RUNNING else Status.SUCCESS) = Status.SUCCESS ↔ ¬ c := by
  split <;> simp [*]

theorem ite_status_running_iff (c : Prop) [Decidable c] :
    (if c then Status.RUNNING else Status.SUCCESS) = Status.RUNNING ↔ c := by
  split <;> simp [*]

theorem ite_status_flipped_cases (c : Prop) [Decidable c] :
    (if c then Status.SUCCESS else Status.RUNNING) = Status.RUNNING ∨
      (if c then Status.SUCCESS else Status.RUNNING) = Status.SUCCESS := by
  split
  · exact Or.inr rfl
  · exact Or.inl rfl

theorem ite_status_flipped_success_iff (c : Prop) [Decidable c] :
    (if c then Status.SUCCESS else Status.RUNNING) = Status.SUCCESS ↔ c := by
  split <;> simp [*]

/-! ## Shared helper lemmas about the individual condition nodes -/

theorem region_update_cases (min_x max_x min_y max_y : ℚ) (loc : Location) :
    InTriggerRegion.update min_x max_x min_y max_y loc = Status.RUNNING ∨
      InTriggerRegion.update min_x max_x min_y max_y loc = Status.SUCCESS := by
  simp only [InTriggerRegion.update]
  exact ite_status_cases _

theorem region_update_success_iff (min_x max_x min_y max_y : ℚ) (loc : Location) :
    InTriggerRegion.update min_x max_x min_y max_y loc = Status.SUCCESS ↔
      min_x ≤ loc.x ∧ loc.x ≤ max_x ∧ min_y ≤ loc.y ∧ loc.y ≤ max_y := by
  simp only [InTriggerRegion.update]
  rw [ite_status_success_iff]
  push_neg
  tauto

theorem region_update_running_iff (min_x max_x min_y max_y : ℚ) (loc : Location) :
    InTriggerRegion.update min_x max_x min_y max_y loc = Status.RUNNING ↔
      (loc.x < min_x ∨ loc.x > max_x ∨ loc.y < min_y ∨ loc.y > max_y) := by
  simp only [InTriggerRegion.update]
  rw [ite_status_running_iff]
  tauto

theorem tta_location_update_success_iff (time distance velocity : ℚ) :
    InTimeToArrivalToLocation.update time distance velocity = Status.SUCCESS ↔
      (if velocity > EPSILON then distance / velocity else max_time_to_arrival) ≤ time := by
  simp only [InTimeToArrivalToLocation.update]
  rw [ite_status_success_iff, not_lt]

theorem tta_vehicle_update_success_iff
    (time distance current_velocity other_velocity : ℚ) :
    InTimeToArrivalToVehicle.update time distance current_velocity other_velocity =
        Status.SUCCESS ↔
      (if current_velocity > other_velocity then
          2 * distance / (current_velocity - other_velocity)
        else max_time_to_arrival) ≤ time := by
  simp only [InTimeToArrivalToVehicle.update]
  rw [ite_status_success_iff, not_lt]

/-! ## Shared helper lemmas about the action nodes -/

theorem accelerate_update_frame (throttle_value target_velocity : ℚ)
    (c : VehicleControl) (v : ℚ) :
    (AccelerateToVelocity.update throttle_value target_velocity c v).2.1.brake = c.brake ∧
    (AccelerateToVelocity.update throttle_value target_velocity c v).2.1.steer = c.steer ∧
    (AccelerateToVelocity.update throttle_value target_velocity c v).2.1.hand_brake = c.hand_brake ∧
    (AccelerateToVelocity.update throttle_value target_velocity c v).2.1.reverse = c.reverse := by
  by_cases h : v < target_velocity <;>
    simp [AccelerateToVelocity.update, h]

theorem keep_update_frame (target_velocity : ℚ) (c : VehicleControl) (v : ℚ) :
    (KeepVelocity.update target_velocity c v).2.1.brake = c.brake ∧
    (KeepVelocity.update target_velocity c v).2.1.steer = c.steer ∧
    (KeepVelocity.update target_velocity c v).2.1.hand_brake = c.hand_brake ∧
    (KeepVelocity.update target_velocity c v).2.1.reverse = c.reverse := by
  by_cases h : v < target_velocity <;>
    simp [KeepVelocity.update, h]

theorem stop_update_frame (brake_value : ℚ) (c : VehicleControl) (v : ℚ) :
    (StopVehicle.update brake_value c v).2.1.throttle = c.throttle ∧
    (StopVehicle.update brake_value c v).2.1.steer = c.steer ∧
    (StopVehicle.update brake_value c v).2.1.hand_brake = c.hand_brake ∧
    (StopVehicle.update brake_value c v).2.1.reverse = c.reverse := by
  by_cases h : v > EPSILON <;>
    simp [StopVehicle.update, h]

theorem accelerate_run_frame (throttle_value target_velocity : ℚ) :
    ∀ (vs : List ℚ) (c : VehicleControl),
      (AccelerateToVelocity.run throttle_value target_velocity c vs).brake = c.brake ∧
      (AccelerateToVelocity.run throttle_value target_velocity c vs).steer = c.steer ∧
      (AccelerateToVelocity.run throttle_value target_velocity c vs).hand_brake = c.hand_brake ∧
      (AccelerateToVelocity.run throttle_value target_velocity c vs).reverse = c.reverse := by
  intro vs
  induction vs with
  | nil => intro c; simp [AccelerateToVelocity.run]
  | cons v vs ih =>
      intro c
      have hstep := accelerate_update_frame throttle_value target_velocity c v
      have hrest := ih (AccelerateToVelocity.update throttle_value target_velocity c v).2.1
      rw [AccelerateToVelocity.run]
      exact ⟨hrest.1.trans hstep.1, hrest.2.1.trans hstep.2.1,
        hrest.2.2.1.trans hstep.2.2.1, hrest.2.2.2.trans hstep.2.2.2⟩

theorem keep_run_frame (target_velocity : ℚ) :
    ∀ (vs : List ℚ) (c : VehicleControl),
      (KeepVelocity.run target_velocity c vs).brake = c.brake ∧
      (KeepVelocity.run target_velocity c vs).steer = c.steer ∧
      (KeepVelocity.run target_velocity c vs).hand_brake = c.hand_brake ∧
      (KeepVelocity.run target_velocity c vs).reverse = c.reverse := by
  intro vs
  induction vs with
  | nil => intro c; simp [KeepVelocity.run]
  | cons v vs ih =>
      intro c
      have hstep := keep_update_frame target_velocity c v
      have hrest := ih (KeepVelocity.update target_velocity c v).2.1
      rw [KeepVelocity.run]
      exact ⟨hrest.1.trans hstep.1, hrest.2.1.trans hstep.2.1,
        hrest.2.2.1.trans hstep.2.2.1, hrest.2.2.2.trans hstep.2.2.2⟩

theorem stop_run_frame (brake_value : ℚ) :
    ∀ (vs : List ℚ) (c : VehicleControl),
      (StopVehicle.run brake_value c vs).throttle = c.throttle ∧
      (StopVehicle.run brake_value c vs).steer = c.steer ∧
      (StopVehicle.run brake_value c vs).hand_brake = c.hand_brake ∧
      (StopVehicle.run brake_value c vs).reverse = c.reverse := by
  intro vs
  induction vs with
  | nil => intro c; simp [StopVehicle.run]
  | cons v vs ih =>
      intro c
      have hstep := stop_update_frame brake_value c v
      have hrest := ih (StopVehicle.update brake_value c v).2.1
      rw [StopVehicle.run]
      exact ⟨hrest.1.trans hstep.1, hrest.2.1.trans hstep.2.1,
        hrest.2.2.1.trans hstep.2.2.1, hrest.2.2.2.trans hstep.2.2.2⟩

/-! ## Claim theorems -/

/-- C1 (code divergence): `terminate` does NOT zero the actuation for
`StopVehicle` and `AccelerateToVelocity` — both terminate bodies only log.
After a RUNNING tick of `StopVehicle` (brake_value 3/4, speed 5) the last
command applied to the actor has brake 3/4; `terminate` applies no command,
so the commanded brake stays 3/4 ≠ 0.  Likewise `AccelerateToVelocity` leaves
throttle at its throttle_value after terminate.  Only `KeepVelocity.terminate`
performs the cleanup the spec requires of every action node. -/
theorem stop_and_accelerate_terminate_no_cleanup :
    ((StopVehicle.update (3/4) VehicleControl.init 5).1 = Status.RUNNING ∧
     (StopVehicle.terminate (StopVehicle.update (3/4) VehicleControl.init 5).2.1).2 = [] ∧
     (commandedAfter (StopVehicle.update (3/4) VehicleControl.init 5).2.1
        (StopVehicle.terminate
          (StopVehicle.update (3/4) VehicleControl.init 5).2.1).2).brake = 3/4) ∧
    ((AccelerateToVelocity.update (1/2) 10 VehicleControl.init 5).1 = Status.RUNNING ∧
     (commandedAfter (AccelerateToVelocity.update (1/2) 10 VehicleControl.init 5).2.1
        (AccelerateToVelocity.terminate
          (AccelerateToVelocity.update (1/2) 10 VehicleControl.init 5).2.1).2).throttle
        = 1/2) := by
  norm_num [StopVehicle.update, StopVehicle.terminate, AccelerateToVelocity.update,
    AccelerateToVelocity.terminate, commandedAfter, VehicleControl.init, EPSILON]

/-- C2 (counterexample): with speed 0 AND distance 0, the claim says
`InTimeToArrivalToLocation.update` returns SUCCESS; the code still substitutes
the sentinel 10000 (the guard is on velocity only), so with time budget 5 it
returns RUNNING.  Moreover with time budget 10000 it returns SUCCESS even at
nonzero distance, refuting "never returns SUCCESS". -/
theorem tta_location_zero_speed_counterexample :
    InTimeToArrivalToLocation.update 5 0 0 = Status.RUNNING ∧
    InTimeToArrivalToLocation.update 10000 7 0 = Status.SUCCESS := by
  norm_num [InTimeToArrivalToLocation.update, EPSILON, max_time_to_arrival]

/-- C2 (amended): for every actor with speed 0, `InTimeToArrivalToLocation.update`
uses the sentinel 10000 regardless of the distance (even distance 0), so it
returns SUCCESS iff the time budget is at least 10000 — never for any smaller
budget. -/
theorem tta_location_zero_speed_success_iff :
    ∀ (time distance : ℚ),
      InTimeToArrivalToLocation.update time distance 0 = Status.SUCCESS ↔
        (10000 : ℚ) ≤ time := by
  intro time distance
  rw [tta_location_update_success_iff]
  rw [if_neg (by norm_num [EPSILON])]
  norm_num [max_time_to_arrival]

/-- C3 (code divergence): the claim (and the spec) says `TriggerVelocity`
succeeds once speed reaches or exceeds the target; the code tests
`velocity - target_velocity < EPSILON`, which is the opposite direction.
At speed 10 with target 5 (speed ≥ target) the first update returns RUNNING,
and at speed 0 with target 10 it returns SUCCESS even though the vehicle does
not have the trigger velocity, contradicting the method's docstring. -/
theorem trigger_velocity_direction_reversed :
    TriggerVelocity.update 5 10 = Status.RUNNING ∧
    TriggerVelocity.update 10 0 = Status.SUCCESS := by
  norm_num [TriggerVelocity.update, EPSILON]

/-- C4: `InTimeToArrivalToVehicle.update` computes the closing time as
`2 * distance / (ego speed - other speed)` exactly when the ego speed is
strictly greater than the other speed, and otherwise uses the sentinel 10000;
it returns SUCCESS iff the resulting time is at most the budget.  In the
concrete scenario (distance 100, ego speed 10, other speed 0) the closing time
is 20, so the budget 5 yields RUNNING and the budget 25 yields SUCCESS. -/
theorem tta_vehicle_closing_time_characterisation :
    (∀ (time distance current_velocity other_velocity : ℚ),
      InTimeToArrivalToVehicle.update time distance current_velocity other_velocity =
          Status.SUCCESS ↔
        ((other_velocity < current_velocity ∧
            2 * distance / (current_velocity - other_velocity) ≤ time) ∨
         (¬ other_velocity < current_velocity ∧ (10000 : ℚ) ≤ time))) ∧
    InTimeToArrivalToVehicle.update 5 100 10 0 = Status.RUNNING ∧
    InTimeToArrivalToVehicle.update 25 100 10 0 = Status.SUCCESS := by
  refine ⟨fun time distance ve vo => ?_,
    by norm_num [InTimeToArrivalToVehicle.update, max_time_to_arrival],
    by norm_num [InTimeToArrivalToVehicle.update, max_time_to_arrival]⟩
  rw [tta_vehicle_update_success_iff]
  by_cases h : vo < ve
  · rw [if_pos h]
    simp [h]
  · rw [if_neg h]
    simp [h, max_time_to_arrival]

/-- C5 (counterexample): `InTimeToArrivalToVehicle.update` guards the division
with `current_velocity > other_velocity`, NOT with the epsilon threshold.
With ego speed 1/1000 and other speed 0 the divisor 1/1000 - 0 does not exceed
EPSILON, yet the division branch is taken: the closing time is
2 * 1 / (1/1000) = 2000 ≤ 5000, so the node returns SUCCESS — had the sentinel
10000 been substituted it would have returned RUNNING. -/
theorem tta_vehicle_divides_below_epsilon :
    ¬ ((1/1000 : ℚ) - 0 > EPSILON) ∧
    InTimeToArrivalToVehicle.update 5000 1 (1/1000) 0 = Status.SUCCESS := by
  constructor
  · norm_num [EPSILON]
  · norm_num [InTimeToArrivalToVehicle.update, max_time_to_arrival]

/-- C5 (amended): `InTimeToArrivalToLocation.update` substitutes the sentinel
10000 whenever `velocity ≤ EPSILON` (so its division only runs with divisor
greater than 0.001), while `InTimeToArrivalToVehicle.update` substitutes the
sentinel exactly when the ego speed is not strictly greater than the other
speed; when its division does run the divisor is strictly positive, so neither
node ever divides by zero. -/
theorem tta_division_guards :
    (∀ (time distance velocity : ℚ), velocity ≤ EPSILON →
      InTimeToArrivalToLocation.update time distance velocity =
        (if max_time_to_arrival > time then Status.RUNNING else Status.SUCCESS)) ∧
    (∀ (time distance current_velocity other_velocity : ℚ),
      ¬ other_velocity < current_velocity →
      InTimeToArrivalToVehicle.update time distance current_velocity other_velocity =
        (if max_time_to_arrival > time then Status.RUNNING else Status.SUCCESS)) ∧
    (∀ (current_velocity other_velocity : ℚ),
      other_velocity < current_velocity → 0 < current_velocity - other_velocity) := by
  refine ⟨fun time distance velocity h => ?_, fun time distance ve vo h => ?_,
    fun ve vo h => sub_pos.mpr h⟩
  · simp only [InTimeToArrivalToLocation.update]
    rw [if_neg (not_lt.mpr h)]
  · simp only [InTimeToArrivalToVehicle.update]
    rw [if_neg h]

/-- Witness for the amended C5 theorem at concrete inputs: speed 0 for the
location node, equal speeds for the vehicle node, speeds 3 and 1 for the
divisor sign. -/
theorem tta_division_guards_witness :
    InTimeToArrivalToLocation.update 5 3 0 =
      (if max_time_to_arrival > (5 : ℚ) then Status.RUNNING else Status.SUCCESS) ∧
    InTimeToArrivalToVehicle.update 5 3 2 2 =
      (if max_time_to_arrival > (5 : ℚ) then Status.RUNNING else Status.SUCCESS) ∧
    (0 : ℚ) < 3 - 1 :=
  ⟨tta_division_guards.1 5 3 0 (by norm_num [EPSILON]),
   tta_division_guards.2.1 5 3 2 2 (by norm_num),
   tta_division_guards.2.2 3 1 (by norm_num)⟩

/-- C6: every condition node's update returns RUNNING or SUCCESS (never
FAILURE, never INVALID), and returns SUCCESS exactly when its predicate holds
on the current tick's actor state — no settling tick, since each update is a
function of the current state alone. -/
theorem conditions_return_running_or_success :
    ∀ (min_x max_x min_y max_y : ℚ) (loc : Location)
      (dv ego_to_other dl to_target tgt vel tL dL vL tV dV ve vo : ℚ),
      (InTriggerRegion.update min_x max_x min_y max_y loc = Status.RUNNING ∨
         InTriggerRegion.update min_x max_x min_y max_y loc = Status.SUCCESS) ∧
      (InTriggerRegion.update min_x max_x min_y max_y loc = Status.SUCCESS ↔
         min_x ≤ loc.x ∧ loc.x ≤ max_x ∧ min_y ≤ loc.y ∧ loc.y ≤ max_y) ∧
      (InTriggerDistanceToVehicle.update dv ego_to_other = Status.RUNNING ∨
         InTriggerDistanceToVehicle.update dv ego_to_other = Status.SUCCESS) ∧
      (InTriggerDistanceToVehicle.update dv ego_to_other = Status.SUCCESS ↔
         ego_to_other ≤ dv) ∧
      (InTriggerDistanceToLocation.update dl to_target = Status.RUNNING ∨
         InTriggerDistanceToLocation.update dl to_target = Status.SUCCESS) ∧
      (InTriggerDistanceToLocation.update dl to_target = Status.SUCCESS ↔
         to_target ≤ dl) ∧
      (TriggerVelocity.update tgt vel = Status.RUNNING ∨
         TriggerVelocity.update tgt vel = Status.SUCCESS) ∧
      (TriggerVelocity.update tgt vel = Status.SUCCESS ↔ vel - tgt < EPSILON) ∧
      (InTimeToArrivalToLocation.update tL dL vL = Status.RUNNING ∨
         InTimeToArrivalToLocation.update tL dL vL = Status.SUCCESS) ∧
      (InTimeToArrivalToLocation.update tL dL vL = Status.SUCCESS ↔
         (if vL > EPSILON then dL / vL else max_time_to_arrival) ≤ tL) ∧
      (InTimeToArrivalToVehicle.update tV dV ve vo = Status.RUNNING ∨
         InTimeToArrivalToVehicle.update tV dV ve vo = Status.SUCCESS) ∧
      (InTimeToArrivalToVehicle.update tV dV ve vo = Status.SUCCESS ↔
         (if ve > vo then 2 * dV / (ve - vo) else max_time_to_arrival) ≤ tV) := by
  intro min_x max_x min_y max_y loc dv ego_to_other dl to_target tgt vel tL dL vL tV dV ve vo
  refine ⟨region_update_cases min_x max_x min_y max_y loc,
    region_update_success_iff min_x max_x min_y max_y loc,
    ?_, ?_, ?_, ?_, ?_, ?_, ?_,
    tta_location_update_success_iff tL dL vL,
    ?_,
    tta_vehicle_update_success_iff tV dV ve vo⟩
  · simp only [InTriggerDistanceToVehicle.update]
    exact ite_status_cases _
  · simp only [InTriggerDistanceToVehicle.update]
    rw [ite_status_success_iff, not_lt]
  · simp only [InTriggerDistanceToLocation.update]
    exact ite_status_cases _
  · simp only [InTriggerDistanceToLocation.update]
    rw [ite_status_success_iff, not_lt]
  · simp only [TriggerVelocity.update]
    exact ite_status_flipped_cases _
  · simp only [TriggerVelocity.update]
    exact ite_status_flipped_success_iff _
  · simp only [InTimeToArrivalToLocation.update]
    exact ite_status_cases _
  · simp only [InTimeToArrivalToVehicle.update]
    exact ite_status_cases _

/-- C7: `InTriggerRegion.update` returns SUCCESS exactly when the position is
inside the rectangle with inclusive bounds, and RUNNING exactly when the
position is outside on some axis (strictly below a minimum or strictly above a
maximum). -/
theorem region_trigger_inclusive_bounds :
    ∀ (min_x max_x min_y max_y : ℚ) (loc : Location),
      (InTriggerRegion.update min_x max_x min_y max_y loc = Status.SUCCESS ↔
         min_x ≤ loc.x ∧ loc.x ≤ max_x ∧ min_y ≤ loc.y ∧ loc.y ≤ max_y) ∧
      (InTriggerRegion.update min_x max_x min_y max_y loc = Status.RUNNING ↔
         (loc.x < min_x ∨ loc.x > max_x ∨ loc.y < min_y ∨ loc.y > max_y)) :=
  fun min_x max_x min_y max_y loc =>
    ⟨region_update_success_iff min_x max_x min_y max_y loc,
     region_update_running_iff min_x max_x min_y max_y loc⟩

/-- C8: each action node mutates its single persistent control (the untouched
actuation field carries over from the previous tick's control rather than
being reset by a fresh construction) and passes exactly that control to
`apply_control` exactly once per update call; on a SUCCESS tick the designated
actuation field (throttle for AccelerateToVelocity, brake for StopVehicle) is
0 in the command issued on that same tick. -/
theorem action_nodes_apply_persistent_control :
    (∀ (throttle_value target_velocity : ℚ) (c : VehicleControl) (v : ℚ),
      (AccelerateToVelocity.update throttle_value target_velocity c v).2.2 =
        [(AccelerateToVelocity.update throttle_value target_velocity c v).2.1] ∧
      (AccelerateToVelocity.update throttle_value target_velocity c v).2.1.brake = c.brake ∧
      ((AccelerateToVelocity.update throttle_value target_velocity c v).1 = Status.SUCCESS →
        (AccelerateToVelocity.update throttle_value target_velocity c v).2.1.throttle = 0)) ∧
    (∀ (target_velocity : ℚ) (c : VehicleControl) (v : ℚ),
      (KeepVelocity.update target_velocity c v).2.2 =
        [(KeepVelocity.update target_velocity c v).2.1] ∧
      (KeepVelocity.update target_velocity c v).2.1.brake = c.brake) ∧
    (∀ (brake_value : ℚ) (c : VehicleControl) (v : ℚ),
      (StopVehicle.update brake_value c v).2.2 =
        [(StopVehicle.update brake_value c v).2.1] ∧
      (StopVehicle.update brake_value c v).2.1.throttle = c.throttle ∧
      ((StopVehicle.update brake_value c v).1 = Status.SUCCESS →
        (StopVehicle.update brake_value c v).2.1.brake = 0)) := by
  refine ⟨fun a tgt c v => ?_, fun tgt c v => ?_, fun b c v => ?_⟩
  · by_cases h : v < tgt <;> simp [AccelerateToVelocity.update, h]
  · by_cases h : v < tgt <;> simp [KeepVelocity.update, h]
  · by_cases h : v > EPSILON <;> simp [StopVehicle.update, h]

/-- Witness for C8 at SUCCESS ticks: AccelerateToVelocity at speed 20 with
target 10 issues throttle 0; StopVehicle at speed 0 issues brake 0. -/
theorem action_nodes_apply_persistent_control_witness :
    (AccelerateToVelocity.update (1/2) 10 VehicleControl.init 20).2.1.throttle = 0 ∧
    (StopVehicle.update (3/4) VehicleControl.init 0).2.1.brake = 0 :=
  ⟨(action_nodes_apply_persistent_control.1 (1/2) 10 VehicleControl.init 20).2.2
      (by norm_num [AccelerateToVelocity.update]),
   (action_nodes_apply_persistent_control.2.2 (3/4) VehicleControl.init 0).2.2
      (by norm_num [StopVehicle.update, EPSILON])⟩

/-- C9: `KeepVelocity.update` always returns RUNNING (never SUCCESS or
FAILURE), sets throttle to 1.0 exactly when the speed is below the target and
to 0.0 otherwise, applies that control to the actor on every tick, and
`KeepVelocity.terminate` resets throttle to 0 and applies the resulting
command to the actor. -/
theorem keep_velocity_always_running :
    ∀ (target_velocity : ℚ) (c : VehicleControl) (v : ℚ),
      (KeepVelocity.update target_velocity c v).1 = Status.RUNNING ∧
      (KeepVelocity.update target_velocity c v).2.1.throttle =
        (if v < target_velocity then (1 : ℚ) else 0) ∧
      (KeepVelocity.update target_velocity c v).2.2 =
        [(KeepVelocity.update target_velocity c v).2.1] ∧
      (KeepVelocity.terminate c).1.throttle = 0 ∧
      (KeepVelocity.terminate c).2 = [(KeepVelocity.terminate c).1] := by
  intro tgt c v
  by_cases h : v < tgt <;>
    simp [KeepVelocity.update, KeepVelocity.terminate, h]

/-- C10 (frame): starting from the freshly constructed control, any sequence
of update ticks followed by terminate leaves every non-designated field at its
construction-time default: AccelerateToVelocity and KeepVelocity never touch
brake (or steer / hand_brake / reverse), StopVehicle never touches throttle
(or steer / hand_brake / reverse).  Since each tick's issued command equals
the control after that tick, this holds of every command sent to the actor. -/
theorem action_nodes_untouched_fields_stay_default :
    ∀ (throttle_value target_velocity keep_target brake_value : ℚ) (vs : List ℚ),
      ((AccelerateToVelocity.run throttle_value target_velocity VehicleControl.init vs).brake = 0 ∧
       (AccelerateToVelocity.run throttle_value target_velocity VehicleControl.init vs).steer = 0 ∧
       (AccelerateToVelocity.run throttle_value target_velocity VehicleControl.init vs).hand_brake = false ∧
       (AccelerateToVelocity.run throttle_value target_velocity VehicleControl.init vs).reverse = false ∧
       (AccelerateToVelocity.terminate
         (AccelerateToVelocity.run throttle_value target_velocity VehicleControl.init vs)).1.brake = 0) ∧
      ((KeepVelocity.run keep_target VehicleControl.init vs).brake = 0 ∧
       (KeepVelocity.run keep_target VehicleControl.init vs).steer = 0 ∧
       (KeepVelocity.run keep_target VehicleControl.init vs).hand_brake = false ∧
       (KeepVelocity.run keep_target VehicleControl.init vs).reverse = false ∧
       (KeepVelocity.terminate (KeepVelocity.run keep_target VehicleControl.init vs)).1.brake = 0 ∧
       (KeepVelocity.terminate (KeepVelocity.run keep_target VehicleControl.init vs)).1.steer = 0) ∧
      ((StopVehicle.run brake_value VehicleControl.init vs).throttle = 0 ∧
       (StopVehicle.run brake_value VehicleControl.init vs).steer = 0 ∧
       (StopVehicle.run brake_value VehicleControl.init vs).hand_brake = false ∧
       (StopVehicle.run brake_value VehicleControl.init vs).reverse = false ∧
       (StopVehicle.terminate (StopVehicle.run brake_value VehicleControl.init vs)).1.throttle = 0) := by
  intro a tgt kt b vs
  have hA := accelerate_run_frame a tgt vs VehicleControl.init
  have hK := keep_run_frame kt vs VehicleControl.init
  have hS := stop_run_frame b vs VehicleControl.init
  simp only [VehicleControl.init] at hA hK hS
  refine ⟨⟨hA.1, hA.2.1, hA.2.2.1, hA.2.2.2, ?_⟩,
    ⟨hK.1, hK.2.1, hK.2.2.1, hK.2.2.2, ?_, ?_⟩,
    ⟨hS.1, hS.2.1, hS.2.2.1, hS.2.2.2, ?_⟩⟩
  · simpa [AccelerateToVelocity.terminate] using hA.1
  · simpa [KeepVelocity.terminate] using hK.1
  · simpa [KeepVelocity.terminate] using hK.2.1
  · simpa [StopVehicle.terminate] using hS.1
